import Mathlib

/-!
Verification of the reqselenium repository's core behaviour.

We shallowly embed the relevant parts of `src/reqselenium.py`, `src/mixin.py`
and `src/response.py` as executable Lean definitions.  External collaborators
(the selenium webdriver, the requests HTTP client, the tldextract domain
parser) are modelled as oracles passed in explicitly: the code under
verification only observes their results, so every theorem quantifies over
those oracles.  Python-specific behaviour is modelled explicitly:

* string truthiness (`if s:` is false exactly for the empty string);
* the substring test `a in b`;
* indexing `s[0]` on an empty string raising `IndexError`;
* an instance attribute that was never assigned raising `AttributeError`
  on access.
-/

namespace ReqSelenium

/-- Python truthiness of a string: `''` is falsy, everything else truthy. -/
def pyTruthy (s : String) : Bool := s != ""

/-- Python truthiness of an optional string (`None` is falsy, `''` is falsy). -/
def pyTruthyOpt : Option String → Bool
  | none => false
  | some s => pyTruthy s

/-- Helper for the Python substring test: is `needle` a contiguous infix of
the haystack (given as character lists)? -/
def infixAt : List Char → List Char → Bool
  | needle, [] => needle.isEmpty
  | needle, haystack@(_ :: t) => needle.isPrefixOf haystack || infixAt needle t

/-- Python's `needle in haystack` test on strings (substring containment;
the empty needle is contained in every string). -/
def pyIn (needle haystack : String) : Bool := infixAt needle.data haystack.data

/-- A cookie as handled by the repository: the dict keys
(name, value, domain, path, expiry) of `ensure_add_cookie`'s contract. -/
structure Cookie where
  name : String
  value : String
  domain : String
  path : String := ""
  expiry : Option Int := none
deriving Repr, DecidableEq

/-- `DriverMixin.is_cookie_in_driver` (mixin.py lines 75-86): scan the
driver's cookies for a match on name and value exactly, and on domain either
exactly or with a single leading dot prepended. -/
def is_cookie_in_driver (store : List Cookie) (cookie : Cookie) : Bool :=
  store.any fun driver_cookie =>
    cookie.name == driver_cookie.name &&
    cookie.value == driver_cookie.value &&
    (cookie.domain == driver_cookie.domain ||
     ("." ++ cookie.domain) == driver_cookie.domain)

/-- The domain normalization of `ensure_add_cookie` (mixin.py line 50):
`cookie['domain'] if cookie['domain'][0] != '.' else cookie['domain'][1:]`.
Indexing `[0]` on the empty string raises `IndexError`, modelled as `none`. -/
def normalizeCookieDomain (s : String) : Option String :=
  match s.data with
  | [] => none
  | c :: rest => if c != '.' then some s else some (String.mk rest)

/-- The `override_domain` handling of `ensure_add_cookie` (mixin.py
lines 47-48): `if override_domain: cookie['domain'] = override_domain`
(a falsy override, `None` or `''`, leaves the cookie unchanged). -/
def applyOverride (cookie : Cookie) (override_domain : Option String) : Cookie :=
  match override_domain with
  | none => cookie
  | some d => if pyTruthy d then { cookie with domain := d } else cookie

/-- Oracle for the external collaborators `ensure_add_cookie` observes:
the webdriver's current URL (`none` models the un-navigated driver, where
`tldextract.extract(self.current_url)` raises `AttributeError`), the
tldextract domain parser, and the driver's cookie store as seen by
`get_cookies()` after the first and after the second `add_cookie` call. -/
structure DriverOracle where
  currentUrl : Option String
  fqdn : String → String
  registeredDomain : String → String
  storeAfterAdd1 : List Cookie
  storeAfterAdd2 : List Cookie

/-- Observable side effects of `ensure_add_cookie` on the webdriver:
a navigation (`self.get(url)`) or a native cookie add (`self.add_cookie`). -/
inductive DriverEvent where
  | nav (url : String)
  | add (cookie : Cookie)
deriving Repr, DecidableEq

/-- Is the event a navigation? -/
def DriverEvent.isNav : DriverEvent → Bool
  | DriverEvent.nav _ => true
  | DriverEvent.add _ => false

/-- Is the event a native cookie-add attempt? -/
def DriverEvent.isAdd : DriverEvent → Bool
  | DriverEvent.nav _ => false
  | DriverEvent.add _ => true

/-- Failures of `ensure_add_cookie`: the `IndexError` from indexing an empty
domain string, or the `WebDriverException` raised after both add attempts
fail verification (carrying the cookie, mixin.py lines 70-73). -/
inductive AddCookieError where
  | indexError
  | cookieInjectionFailed (cookie : Cookie)
deriving Repr, DecidableEq

/-- The browser's current domain as computed at mixin.py lines 51-54:
`tldextract.extract(self.current_url).fqdn`, with `AttributeError`
(un-navigated driver) handled by treating the domain as `''`. -/
def browserDomain (o : DriverOracle) : String :=
  match o.currentUrl with
  | none => ""
  | some u => o.fqdn u

/-- The domain widening of the retry at mixin.py line 68:
`cookie['domain'] = tldextract.extract(cookie['domain']).registered_domain`. -/
def widen (o : DriverOracle) (cookie : Cookie) : Cookie :=
  { cookie with domain := o.registeredDomain cookie.domain }

/-- The add-and-verify phase of `ensure_add_cookie` (mixin.py lines 64-73):
`add_cookie`, verify with `is_cookie_in_driver`; on failure retry once with
the domain widened to its registered domain, verify again, and raise the
`WebDriverException` carrying the (widened) cookie if still not found. -/
def add_cookie_attempts (o : DriverOracle) (cookie : Cookie) :
    Except AddCookieError Unit × List DriverEvent :=
  if is_cookie_in_driver o.storeAfterAdd1 cookie then
    (Except.ok (), [DriverEvent.add cookie])
  else
    if is_cookie_in_driver o.storeAfterAdd2 (widen o cookie) then
      (Except.ok (), [DriverEvent.add cookie, DriverEvent.add (widen o cookie)])
    else
      (Except.error (AddCookieError.cookieInjectionFailed (widen o cookie)),
       [DriverEvent.add cookie, DriverEvent.add (widen o cookie)])

/-- `DriverMixin.ensure_add_cookie` (mixin.py lines 28-73).  Returns the
result together with the ordered list of webdriver side effects:
1. apply `override_domain` if truthy;
2. normalize the cookie domain by stripping one leading dot
   (raises `IndexError` on an empty domain);
3. if the normalized domain is not a substring of the browser's current
   domain, navigate to `http://` + normalized domain;
4. run the add-and-verify phase (`add_cookie_attempts`). -/
def ensure_add_cookie (o : DriverOracle) (cookie0 : Cookie)
    (override_domain : Option String) :
    Except AddCookieError Unit × List DriverEvent :=
  let cookie := applyOverride cookie0 override_domain
  match normalizeCookieDomain cookie.domain with
  | none => (Except.error AddCookieError.indexError, [])
  | some cookie_domain =>
    let navs : List DriverEvent :=
      if pyIn cookie_domain (browserDomain o) then []
      else [DriverEvent.nav ("http://" ++ cookie_domain)]
    let r := add_cookie_attempts o cookie
    (r.1, navs ++ r.2)

/-- A webdriver element handle.  `hasEnsureClick` records whether the robust
click capability has been monkey-patched onto it (mixin.py line 165). -/
structure WebElement where
  elemId : String
  hasEnsureClick : Bool := false
deriving Repr, DecidableEq

/-- The monkey patch `element.ensure_click = partial(_ensure_click, element)`
performed at mixin.py line 165. -/
def attachEnsureClick (e : WebElement) : WebElement := { e with hasEnsureClick := true }

/-- Failures of `ensure_element`: the `ValueError` raised on an unsupported
`state` argument (carrying the offending value), or the timeout of
`WebDriverWait.until`. -/
inductive EnsureError where
  | invalidArgument (state : String)
  | elementNotFound
deriving Repr, DecidableEq

/-- The supported `state` values of `ensure_element`, in the order the
if-chain at mixin.py lines 138-159 tests them. -/
def ensureElementStates : List String := ["visible", "clickable", "present", "invisible"]

/-- `DriverMixin.ensure_element` (mixin.py lines 112-166), abstracted over
the outcome of the single `WebDriverWait(self, timeout).until(...)` call the
matching branch performs: `wait = some e` means the wait condition became
truthy (yielding element `e` for the element-producing conditions), `none`
means the wait timed out.  Returns the result (for `invisible` the code sets
`element = None`) paired with the number of `WebDriverWait` invocations
performed; the trailing `if element:` attaches the robust click capability
to any returned element. -/
def ensure_element (state : String) (wait : Option WebElement) :
    Except EnsureError (Option WebElement) × Nat :=
  if state == "visible" then
    match wait with
    | some e => (Except.ok (some (attachEnsureClick e)), 1)
    | none => (Except.error EnsureError.elementNotFound, 1)
  else if state == "clickable" then
    match wait with
    | some e => (Except.ok (some (attachEnsureClick e)), 1)
    | none => (Except.error EnsureError.elementNotFound, 1)
  else if state == "present" then
    match wait with
    | some e => (Except.ok (some (attachEnsureClick e)), 1)
    | none => (Except.error EnsureError.elementNotFound, 1)
  else if state == "invisible" then
    match wait with
    | some _ => (Except.ok none, 1)
    | none => (Except.error EnsureError.elementNotFound, 1)
  else
    (Except.error (EnsureError.invalidArgument state), 0)

/-- The fixed backoff of `_ensure_click`: `time.sleep(0.2)` (mixin.py
line 217), i.e. 200 milliseconds. -/
def click_backoff_ms : Nat := 200

/-- The message of the `WebDriverException` raised by `_ensure_click` after
exhausting its attempts (mixin.py lines 218-222), carrying the last error. -/
def click_failed_message (last : String) : String :=
  "Couldn't click item after trying 10 times, got error message: \n" ++ last

/-- The `for _ in range(10)` loop of `_ensure_click` (mixin.py lines
211-222), abstracted over the outcome of each native `self.click()` call
(`click i` is the outcome of attempt number `i`, counting from 0).  The
arguments are the index of the next attempt, the remaining fuel, and the
`exception_message` recorded so far.  Returns the result, the number of
click attempts made, and the chronological list of sleep durations (ms). -/
def ensure_click_go (click : Nat → Except String Unit) :
    Nat → Nat → String → Except String Unit × Nat × List Nat
  | _, 0, lastMsg => (Except.error (click_failed_message lastMsg), 0, [])
  | i, fuel + 1, _ =>
    match click i with
    | Except.ok () => (Except.ok (), 1, [])
    | Except.error msg =>
      let r := ensure_click_go click (i + 1) fuel msg
      (r.1, r.2.1 + 1, click_backoff_ms :: r.2.2)

/-- `_ensure_click` (mixin.py lines 188-222): up to 10 native click
attempts, a 200 ms sleep after every failure, and a `WebDriverException`
carrying the last error message once all 10 attempts have failed.
(The scroll-to-center script executed before the loop has no bearing on the
retry discipline and is not modelled.) -/
def ensure_click (click : Nat → Except String Unit) :
    Except String Unit × Nat × List Nat :=
  ensure_click_go click 0 10 ""

/-- The HTTP-client state of `Session` that the cookie bridge observes:
the `_last_requests_url` attribute (`none` models the attribute never having
been assigned, so that reading it raises `AttributeError`) and the cookie
jar. -/
structure SessionState where
  lastRequestsUrl : Option String
  cookies : List Cookie
deriving Repr, DecidableEq

/-- Failures of `transfer_session_cookies_to_driver`: the `AttributeError`
from reading the never-assigned `_last_requests_url`, or the explicit
`Exception` raised when no domain is resolvable (reqselenium.py
lines 76-78). -/
inductive TransferError where
  | attributeError
  | missingDomain
deriving Repr, DecidableEq

/-- The cookie filter of `transfer_session_cookies_to_driver`
(reqselenium.py line 81): `[c for c in self.cookies if domain in c.domain]`
(Python substring test). -/
def cookies_for_domain (cookies : List Cookie) (domain : String) : List Cookie :=
  cookies.filter fun c => pyIn domain c.domain

/-- `Session.transfer_session_cookies_to_driver` (reqselenium.py lines
68-83), abstracted over the tldextract oracle `registeredDomain`.  Returns
the list of cookies pushed to the driver (each via `ensure_add_cookie`).
When `domain` is falsy the code evaluates `self._last_requests_url`, which
raises `AttributeError` if no HTTP request was ever made (the attribute is
only assigned by `get`/`post`/`put`); the explicit missing-domain raise is
reached only when the attribute exists but is falsy. -/
def transfer_session_cookies_to_driver (registeredDomain : String → String)
    (s : SessionState) (domain : Option String) : Except TransferError (List Cookie) :=
  if pyTruthyOpt domain then
    Except.ok (cookies_for_domain s.cookies (domain.getD ""))
  else
    match s.lastRequestsUrl with
    | none => Except.error TransferError.attributeError
    | some u =>
      if pyTruthy u then
        Except.ok (cookies_for_domain s.cookies (registeredDomain u))
      else
        Except.error TransferError.missingDomain

/-- An HTTP response as observed by the Session's verb methods: `resp.url`
is the final URL after redirects (contract of the requests library). -/
structure HttpResponse where
  url : String
deriving Repr, DecidableEq

/-- `Session.get` (reqselenium.py lines 92-95): after a successful request
the session's `_last_requests_url` is set to the response's final URL. -/
def session_get (s : SessionState) (resp : HttpResponse) : SessionState :=
  { s with lastRequestsUrl := some resp.url }

/-- `Session.post` (reqselenium.py lines 97-100): same update as `get`. -/
def session_post (s : SessionState) (resp : HttpResponse) : SessionState :=
  { s with lastRequestsUrl := some resp.url }

/-- `Session.put` (reqselenium.py lines 102-105): same update as `get`. -/
def session_put (s : SessionState) (resp : HttpResponse) : SessionState :=
  { s with lastRequestsUrl := some resp.url }

/-- The manual proxy capability built by `Session.desired_capabilities`
(reqselenium.py lines 43-52): `ProxyType.MANUAL` with the configured HTTP
and SSL endpoints, added to the browser's capabilities. -/
structure ProxyCapability where
  httpProxy : String
  sslProxy : String
deriving Repr, DecidableEq

/-- `Session.desired_capabilities` (reqselenium.py lines 40-53): builds and
caches a manual proxy capability only when both `http_proxy` and
`ssl_proxy` are truthy (and nothing is cached yet); otherwise returns the
cached value, which stays `None` when the condition never held. -/
def desired_capabilities (http_proxy ssl_proxy : Option String)
    (cached : Option ProxyCapability) : Option ProxyCapability :=
  if pyTruthyOpt http_proxy && pyTruthyOpt ssl_proxy && cached.isNone then
    some { httpProxy := http_proxy.getD "", sslProxy := ssl_proxy.getD "" }
  else
    cached

/-- The construction-time configuration handed to a webdriver by the
`Session` driver initializers: the timeout, the desired capabilities, and
the user-agent override (only the firefox profile carries one). -/
structure DriverConfig where
  timeout : Nat
  desiredCapabilities : Option ProxyCapability
  userAgentOverride : Option String
deriving Repr, DecidableEq

/-- `Session._start_chromedriver` (reqselenium.py lines 55-56): constructs
the Chrome driver from the timeout and capabilities only — no user-agent
is configured on this path. -/
def start_chromedriver (default_timeout : Nat) (caps : Option ProxyCapability) :
    DriverConfig :=
  { timeout := default_timeout, desiredCapabilities := caps, userAgentOverride := none }

/-- `Session._start_geckodriver` (reqselenium.py lines 58-66): constructs
the Firefox driver with a profile whose `general.useragent.override`
preference is set to the session's stored `user_agent`. -/
def start_geckodriver (default_timeout : Nat) (caps : Option ProxyCapability)
    (user_agent : String) : DriverConfig :=
  { timeout := default_timeout, desiredCapabilities := caps,
    userAgentOverride := some user_agent }

/-- The browser dispatch of `Session.__init__` (reqselenium.py lines 26-32)
combined with the first `driver` property access (lines 34-38): an
unsupported browser name raises `ValueError` at construction; otherwise the
first access builds the driver via the selected initializer. -/
def driver_for_browser (browser : String) (default_timeout : Nat)
    (caps : Option ProxyCapability) (user_agent : String) :
    Except String DriverConfig :=
  if browser == "chrome" || browser == "firefox" then
    if browser == "chrome" then
      Except.ok (start_chromedriver default_timeout caps)
    else
      Except.ok (start_geckodriver default_timeout caps user_agent)
  else
    Except.error "Invalid Argument: browser must be chrome or firefox"

/-! ## Theorems -/

/-- C1.  On a `Session` that has made no prior HTTP call, calling
`transfer_session_cookies_to_driver` with no domain argument does not raise
the explicit missing-domain `Exception`: because `__init__` never assigns
`_last_requests_url`, evaluating `self._last_requests_url` in the guard
raises `AttributeError` first, making the missing-domain raise unreachable
for such sessions. -/
theorem transfer_fresh_session_attribute_error
    (registeredDomain : String → String) (cookies : List Cookie) :
    transfer_session_cookies_to_driver registeredDomain
        { lastRequestsUrl := none, cookies := cookies } none =
      Except.error TransferError.attributeError ∧
    transfer_session_cookies_to_driver registeredDomain
        { lastRequestsUrl := none, cookies := cookies } none ≠
      Except.error TransferError.missingDomain := by
  constructor <;> simp [transfer_session_cookies_to_driver, pyTruthyOpt]

/-- C9.  Every successful HTTP GET/POST/PUT updates `_last_requests_url` to
the response's final URL, and a subsequent cookie transfer with no explicit
domain scopes the pushed cookies by the registrable domain of that URL. -/
theorem http_verbs_update_last_url (s : SessionState) (resp : HttpResponse)
    (registeredDomain : String → String) :
    (session_get s resp).lastRequestsUrl = some resp.url ∧
    (session_post s resp).lastRequestsUrl = some resp.url ∧
    (session_put s resp).lastRequestsUrl = some resp.url ∧
    (pyTruthy resp.url = true →
       transfer_session_cookies_to_driver registeredDomain (session_get s resp) none =
         Except.ok (cookies_for_domain s.cookies (registeredDomain resp.url))) := by
  refine ⟨rfl, rfl, rfl, fun h => ?_⟩
  simp [transfer_session_cookies_to_driver, session_get, pyTruthyOpt, h,
    cookies_for_domain]

/-- Witness for C9 at a concrete session, response and domain parser. -/
theorem http_verbs_update_last_url_witness :
    transfer_session_cookies_to_driver (fun _ => "site.test")
        (session_get { lastRequestsUrl := none, cookies := [] }
          { url := "http://site.test/login" }) none =
      Except.ok (cookies_for_domain [] "site.test") :=
  (http_verbs_update_last_url { lastRequestsUrl := none, cookies := [] }
      { url := "http://site.test/login" } (fun _ => "site.test")).2.2.2 (by decide)

/-- C10.  `ensure_add_cookie` with a cookie whose domain is the empty string
(and no override) fails with the `IndexError` of `cookie['domain'][0]`
during domain normalization, performing no navigation and no add attempt. -/
theorem ensure_add_cookie_empty_domain_index_error (o : DriverOracle)
    (name value path : String) (expiry : Option Int) :
    ensure_add_cookie o
        { name := name, value := value, domain := "", path := path, expiry := expiry }
        none =
      (Except.error AddCookieError.indexError, []) := by
  simp [ensure_add_cookie, applyOverride, normalizeCookieDomain]

/-- C7.  On first access (`_desired_capabilities` still `None`), a manual
proxy capability is produced if and only if both `http_proxy` and
`ssl_proxy` are truthy; with a partial configuration the capabilities stay
`None`. -/
theorem desired_capabilities_proxy_iff (hp sp : Option String) :
    ((desired_capabilities hp sp none).isSome = (pyTruthyOpt hp && pyTruthyOpt sp)) ∧
    (∀ caps, desired_capabilities hp sp none = some caps →
       hp = some caps.httpProxy ∧ sp = some caps.sslProxy) ∧
    ((pyTruthyOpt hp && pyTruthyOpt sp) = false →
       desired_capabilities hp sp none = none) := by
  unfold desired_capabilities
  by_cases h : (pyTruthyOpt hp && pyTruthyOpt sp) = true
  · have hhp : pyTruthyOpt hp = true := by
      cases hb : pyTruthyOpt hp <;> simp [hb] at h ⊢
    have hsp : pyTruthyOpt sp = true := by
      cases hb : pyTruthyOpt sp <;> simp [hb] at h ⊢
    cases hp with
    | none => simp [pyTruthyOpt] at hhp
    | some a =>
      cases sp with
      | none => simp [pyTruthyOpt] at hsp
      | some b => simp [h]
  · have h' : (pyTruthyOpt hp && pyTruthyOpt sp) = false := by
      cases hb : (pyTruthyOpt hp && pyTruthyOpt sp) <;> simp [hb] at h ⊢
    simp [h']

/-- Witness for C7: a partial proxy configuration (only `http_proxy` set)
yields no capabilities. -/
theorem desired_capabilities_proxy_iff_witness :
    desired_capabilities (some "127.0.0.1:8123") none none = none :=
  (desired_capabilities_proxy_iff (some "127.0.0.1:8123") none).2.2 (by decide)

/-- C8 counterexample.  The claim — every supported browser's driver is
constructed with a user-agent override equal to the session's user agent —
is false: the chrome path (`_start_chromedriver`) configures no user-agent
at all. -/
theorem chrome_driver_user_agent_claim_false :
    ¬ (∀ (browser : String) (t : Nat) (caps : Option ProxyCapability)
        (ua : String) (cfg : DriverConfig),
        (browser = "chrome" ∨ browser = "firefox") →
        driver_for_browser browser t caps ua = Except.ok cfg →
        cfg.userAgentOverride = some ua) := by
  intro h
  have := h "chrome" 30 none "spoofed-desktop-ua" (start_chromedriver 30 none)
    (Or.inl rfl) (by simp [driver_for_browser])
  simp [start_chromedriver] at this

/-- C8 amended.  Only the firefox driver is constructed with the spoofed
desktop user-agent (the session's stored `user_agent`, set as the profile's
`general.useragent.override`); the chrome driver is constructed with no
user-agent override. -/
theorem driver_user_agent_by_browser (t : Nat) (caps : Option ProxyCapability)
    (ua : String) :
    driver_for_browser "firefox" t caps ua = Except.ok (start_geckodriver t caps ua) ∧
    (start_geckodriver t caps ua).userAgentOverride = some ua ∧
    driver_for_browser "chrome" t caps ua = Except.ok (start_chromedriver t caps) ∧
    (start_chromedriver t caps).userAgentOverride = none := by
  refine ⟨?_, rfl, ?_, rfl⟩ <;> simp [driver_for_browser]

/-- C2.  For every `state` value outside {visible, clickable, present,
invisible}, `ensure_element` raises the `ValueError` immediately and
performs zero waits; for every supported value it performs exactly one
bounded wait and never raises the `ValueError`. -/
theorem ensure_element_state_validation (state : String) (wait : Option WebElement) :
    (state ∉ ensureElementStates →
       ensure_element state wait = (Except.error (EnsureError.invalidArgument state), 0)) ∧
    (state ∈ ensureElementStates →
       (ensure_element state wait).2 = 1 ∧
       ∀ s, (ensure_element state wait).1 ≠ Except.error (EnsureError.invalidArgument s)) := by
  constructor
  · intro h
    have h1 : state ≠ "visible" := fun e => h (by simp [ensureElementStates, e])
    have h2 : state ≠ "clickable" := fun e => h (by simp [ensureElementStates, e])
    have h3 : state ≠ "present" := fun e => h (by simp [ensureElementStates, e])
    have h4 : state ≠ "invisible" := fun e => h (by simp [ensureElementStates, e])
    simp [ensure_element, h1, h2, h3, h4]
  · intro h
    simp only [ensureElementStates, List.mem_cons, List.mem_singleton,
      List.not_mem_nil, or_false] at h
    rcases h with h | h | h | h <;> subst h <;>
      cases wait <;> simp [ensure_element]

/-- Witness for C2: the unsupported value `"bogus"` fails fast with zero
waits; the supported value `"present"` performs one wait and does not raise
the `ValueError`. -/
theorem ensure_element_state_validation_witness :
    ensure_element "bogus" none = (Except.error (EnsureError.invalidArgument "bogus"), 0) ∧
    (ensure_element "present" none).2 = 1 :=
  ⟨(ensure_element_state_validation "bogus" none).1 (by decide),
   ((ensure_element_state_validation "present" none).2 (by decide)).1⟩

/-- C3.  A successful `invisible` wait returns no element; whenever a
non-null element is returned, the robust click capability is attached to it
and the state was one of present/visible/clickable; and for those three
states a successful wait returns the waited-for element with the capability
attached. -/
theorem ensure_element_click_attachment (state : String) (wait : Option WebElement) :
    (state = "invisible" → ∀ e, wait = some e →
       (ensure_element state wait).1 = Except.ok none) ∧
    (∀ e, (ensure_element state wait).1 = Except.ok (some e) →
       e.hasEnsureClick = true ∧
       (state = "present" ∨ state = "visible" ∨ state = "clickable")) ∧
    ((state = "present" ∨ state = "visible" ∨ state = "clickable") →
       ∀ e, wait = some e →
       (ensure_element state wait).1 = Except.ok (some (attachEnsureClick e))) := by
  refine ⟨?_, ?_, ?_⟩
  · rintro rfl e rfl
    simp [ensure_element]
  · intro e he
    by_cases h1 : state = "visible"
    · subst h1
      cases wait with
      | none => simp [ensure_element] at he
      | some e0 =>
        simp only [ensure_element, beq_self_eq_true, if_true] at he
        simp only [Except.ok.injEq, Option.some.injEq] at he
        subst he
        simp [attachEnsureClick]
    · by_cases h2 : state = "clickable"
      · subst h2
        cases wait with
        | none => simp [ensure_element] at he
        | some e0 =>
          simp only [ensure_element] at he
          simp at he
          subst he
          simp [attachEnsureClick]
      · by_cases h3 : state = "present"
        · subst h3
          cases wait with
          | none => simp [ensure_element] at he
          | some e0 =>
            simp only [ensure_element] at he
            simp at he
            subst he
            simp [attachEnsureClick]
        · by_cases h4 : state = "invisible"
          · subst h4
            cases wait <;> simp [ensure_element] at he
          · simp [ensure_element, h1, h2, h3, h4] at he
  · rintro (rfl | rfl | rfl) e rfl <;> simp [ensure_element]

/-- Witness for C3: a successful `invisible` wait yields no element, and a
successful `present` wait yields the element with `ensure_click` attached. -/
theorem ensure_element_click_attachment_witness :
    (ensure_element "invisible" (some { elemId := "x" })).1 = Except.ok none ∧
    (ensure_element "present" (some { elemId := "x" })).1 =
      Except.ok (some (attachEnsureClick { elemId := "x" })) :=
  ⟨(ensure_element_click_attachment "invisible" (some { elemId := "x" })).1 rfl
      { elemId := "x" } rfl,
   (ensure_element_click_attachment "present" (some { elemId := "x" })).2.2
      (Or.inl rfl) { elemId := "x" } rfl⟩

/-- The click loop never makes more attempts than it has fuel. -/
theorem ensure_click_go_attempts_le (click : Nat → Except String Unit) :
    ∀ fuel i msg, (ensure_click_go click i fuel msg).2.1 ≤ fuel := by
  intro fuel
  induction fuel with
  | zero => intro i msg; simp [ensure_click_go]
  | succ n ih =>
    intro i msg
    simp only [ensure_click_go]
    cases h : click i with
    | ok u => cases u; simp
    | error m =>
      simpa using Nat.succ_le_succ (ih (i + 1) m)

/-- If attempt `i + k` is the first success (counting from attempt `i`),
the click loop stops after `k + 1` attempts and `k` backoffs. -/
theorem ensure_click_go_success (click : Nat → Except String Unit) :
    ∀ k fuel i msg, k < fuel → click (i + k) = Except.ok () →
    (∀ j, j < k → click (i + j) ≠ Except.ok ()) →
    ensure_click_go click i fuel msg =
      (Except.ok (), k + 1, List.replicate k click_backoff_ms) := by
  intro k
  induction k with
  | zero =>
    intro fuel i msg hf hok _
    obtain ⟨f, rfl⟩ : ∃ f, fuel = f + 1 := ⟨fuel - 1, by omega⟩
    rw [Nat.add_zero] at hok
    simp [ensure_click_go, hok]
  | succ k ih =>
    intro fuel i msg hf hok hfail
    obtain ⟨f, rfl⟩ : ∃ f, fuel = f + 1 := ⟨fuel - 1, by omega⟩
    have h0 : click i ≠ Except.ok () := by
      have := hfail 0 (Nat.succ_pos k)
      simpa using this
    cases hc : click i with
    | ok u => cases u; exact absurd hc h0
    | error m =>
      have hrec := ih f (i + 1) m (by omega)
        (by have hi : i + 1 + k = i + (k + 1) := by omega
            rw [hi]; exact hok)
        (by intro j hj
            have hi : i + 1 + j = i + (j + 1) := by omega
            rw [hi]; exact hfail (j + 1) (by omega))
      simp [ensure_click_go, hc, hrec, List.replicate_succ]

/-- If every attempt in the fuel window fails, the click loop exhausts the
fuel, sleeps after every failure, and the final error carries the message of
the last failing attempt. -/
theorem ensure_click_go_all_fail (click : Nat → Except String Unit) :
    ∀ fuel i msg0 m, (∀ j, j < fuel → click (i + j) ≠ Except.ok ()) →
    (if fuel = 0 then m = msg0 else click (i + (fuel - 1)) = Except.error m) →
    ensure_click_go click i fuel msg0 =
      (Except.error (click_failed_message m), fuel,
       List.replicate fuel click_backoff_ms) := by
  intro fuel
  induction fuel with
  | zero =>
    intro i msg0 m _ hm
    simp only [if_pos rfl] at hm
    subst hm
    simp [ensure_click_go]
  | succ f ih =>
    intro i msg0 m hfail hm
    simp only [Nat.succ_ne_zero, if_neg, Nat.add_sub_cancel] at hm
    have h0 : click i ≠ Except.ok () := by
      have := hfail 0 (Nat.succ_pos f)
      simpa using this
    cases hc : click i with
    | ok u => cases u; exact absurd hc h0
    | error msg =>
      have hrec := ih (i + 1) msg m
        (by intro j hj
            have hi : i + 1 + j = i + (j + 1) := by omega
            rw [hi]; exact hfail (j + 1) (by omega))
        (by by_cases hzero : f = 0
            · subst hzero
              simp only [if_pos rfl]
              rw [Nat.add_zero] at hm
              rw [hc] at hm
              injection hm with h
              exact h.symm
            · simp only [if_neg hzero]
              have hi : i + 1 + (f - 1) = i + f := by omega
              rw [hi]
              exact hm)
      simp [ensure_click_go, hc, hrec, List.replicate_succ]

/-- C4.  The robust click makes at most 10 native click attempts; a success
at attempt `k + 1` (zero-based index `k`) stops the loop immediately after
`k` fixed 200 ms backoffs; and after 10 consecutive failures it raises the
`WebDriverException` carrying the last error message, having slept after
each of the 10 failures. -/
theorem ensure_click_retry_policy (click : Nat → Except String Unit) :
    ((ensure_click click).2.1 ≤ 10) ∧
    (∀ k, k < 10 → click k = Except.ok () →
       (∀ j, j < k → click j ≠ Except.ok ()) →
       ensure_click click = (Except.ok (), k + 1, List.replicate k click_backoff_ms)) ∧
    (∀ m, (∀ j, j < 10 → click j ≠ Except.ok ()) → click 9 = Except.error m →
       ensure_click click =
         (Except.error (click_failed_message m), 10,
          List.replicate 10 click_backoff_ms)) := by
  refine ⟨ensure_click_go_attempts_le click 10 0 "", ?_, ?_⟩
  · intro k hk hok hfail
    exact ensure_click_go_success click k 10 0 "" hk (by simpa using hok)
      (by intro j hj; simpa using hfail j hj)
  · intro m hfail h9
    exact ensure_click_go_all_fail click 10 0 "" m
      (by intro j hj; simpa using hfail j hj) (by simpa using h9)

/-- A concrete click oracle for the C4 witness: attempts 0 and 1 fail,
attempt 2 succeeds. -/
def click_witness_fn : Nat → Except String Unit :=
  fun n => if n < 2 then Except.error "boom" else Except.ok ()

/-- Witness for C4: with two failures followed by a success, the robust
click returns after exactly 3 attempts and 2 backoffs. -/
theorem ensure_click_retry_policy_witness :
    ensure_click click_witness_fn =
      (Except.ok (), 2 + 1, List.replicate 2 click_backoff_ms) :=
  (ensure_click_retry_policy click_witness_fn).2.1 2 (by omega) rfl
    (fun j hj => by interval_cases j <;> simp [click_witness_fn])

/-- The add-and-verify phase emits only cookie-add events (no navigation),
and at most two of them. -/
theorem add_cookie_attempts_filter (o : DriverOracle) (cookie : Cookie) :
    (add_cookie_attempts o cookie).2.filter DriverEvent.isNav = [] ∧
    (add_cookie_attempts o cookie).2.filter DriverEvent.isAdd =
      (add_cookie_attempts o cookie).2 ∧
    (add_cookie_attempts o cookie).2.countP DriverEvent.isAdd ≤ 2 := by
  by_cases h1 : is_cookie_in_driver o.storeAfterAdd1 cookie <;>
    by_cases h2 : is_cookie_in_driver o.storeAfterAdd2 (widen o cookie) <;>
    simp [add_cookie_attempts, h1, h2, DriverEvent.isNav, DriverEvent.isAdd,
      List.countP_cons]

/-- C5.  When the normalized cookie domain is not a substring of the
browser's current domain, `ensure_add_cookie` performs exactly one
navigation, to `http://` + normalized domain, and it happens before any add
attempt (it is the first driver event); when the normalized domain is a
substring of the current domain, no navigation occurs. -/
theorem ensure_add_cookie_navigation (o : DriverOracle) (cookie0 : Cookie)
    (od : Option String) (cd : String)
    (hcd : normalizeCookieDomain (applyOverride cookie0 od).domain = some cd) :
    (pyIn cd (browserDomain o) = false →
       (ensure_add_cookie o cookie0 od).2.filter DriverEvent.isNav =
         [DriverEvent.nav ("http://" ++ cd)] ∧
       (ensure_add_cookie o cookie0 od).2.head? =
         some (DriverEvent.nav ("http://" ++ cd))) ∧
    (pyIn cd (browserDomain o) = true →
       (ensure_add_cookie o cookie0 od).2.filter DriverEvent.isNav = []) := by
  have hfilter := (add_cookie_attempts_filter o (applyOverride cookie0 od)).1
  constructor
  · intro hpy
    simp only [ensure_add_cookie, hcd]
    simp [hpy, List.filter_append, hfilter, DriverEvent.isNav]
  · intro hpy
    simp only [ensure_add_cookie, hcd]
    simp [hpy, List.filter_append, hfilter]

/-- A concrete driver oracle for the cookie-bridge witnesses: the browser
has not navigated anywhere yet, the first add attempt is not reflected in
the driver's cookies, and the widened retry is. -/
def driver_oracle_witness : DriverOracle :=
  { currentUrl := none
    fqdn := fun _ => ""
    registeredDomain := fun _ => "site.com"
    storeAfterAdd1 := []
    storeAfterAdd2 := [{ name := "a", value := "1", domain := "site.com" }] }

/-- A concrete cookie for the cookie-bridge witnesses. -/
def cookie_witness : Cookie := { name := "a", value := "1", domain := "www.site.com" }

/-- Witness for C5: with the browser on no page, adding a `www.site.com`
cookie navigates to `http://www.site.com` first, and that navigation is the
only one. -/
theorem ensure_add_cookie_navigation_witness :
    (ensure_add_cookie driver_oracle_witness cookie_witness none).2.filter
        DriverEvent.isNav = [DriverEvent.nav ("http://" ++ "www.site.com")] ∧
    (ensure_add_cookie driver_oracle_witness cookie_witness none).2.head? =
      some (DriverEvent.nav ("http://" ++ "www.site.com")) :=
  (ensure_add_cookie_navigation driver_oracle_witness cookie_witness none
    "www.site.com" (by decide)).1 (by decide)

/-- C6.  The verification predicate matches on name and value exactly and on
domain exactly or with one leading dot; `ensure_add_cookie` makes at most 2
add attempts; success on the first verification stops after one attempt;
otherwise it retries exactly once with the domain widened to its registered
domain; and if the second verification also fails it raises the
`WebDriverException` carrying the (widened) cookie. -/
theorem ensure_add_cookie_retry_policy (o : DriverOracle) (cookie0 : Cookie)
    (od : Option String) (cd : String)
    (hcd : normalizeCookieDomain (applyOverride cookie0 od).domain = some cd) :
    (∀ (store : List Cookie) (c : Cookie), is_cookie_in_driver store c = true ↔
       ∃ d ∈ store, c.name = d.name ∧ c.value = d.value ∧
         (c.domain = d.domain ∨ "." ++ c.domain = d.domain)) ∧
    ((ensure_add_cookie o cookie0 od).2.countP DriverEvent.isAdd ≤ 2) ∧
    (is_cookie_in_driver o.storeAfterAdd1 (applyOverride cookie0 od) = true →
       (ensure_add_cookie o cookie0 od).1 = Except.ok () ∧
       (ensure_add_cookie o cookie0 od).2.filter DriverEvent.isAdd =
         [DriverEvent.add (applyOverride cookie0 od)]) ∧
    (is_cookie_in_driver o.storeAfterAdd1 (applyOverride cookie0 od) = false →
       is_cookie_in_driver o.storeAfterAdd2 (widen o (applyOverride cookie0 od)) = true →
       (ensure_add_cookie o cookie0 od).1 = Except.ok () ∧
       (ensure_add_cookie o cookie0 od).2.filter DriverEvent.isAdd =
         [DriverEvent.add (applyOverride cookie0 od),
          DriverEvent.add (widen o (applyOverride cookie0 od))]) ∧
    (is_cookie_in_driver o.storeAfterAdd1 (applyOverride cookie0 od) = false →
       is_cookie_in_driver o.storeAfterAdd2 (widen o (applyOverride cookie0 od)) = false →
       (ensure_add_cookie o cookie0 od).1 =
         Except.error
           (AddCookieError.cookieInjectionFailed (widen o (applyOverride cookie0 od))) ∧
       (ensure_add_cookie o cookie0 od).2.filter DriverEvent.isAdd =
         [DriverEvent.add (applyOverride cookie0 od),
          DriverEvent.add (widen o (applyOverride cookie0 od))]) := by
  refine ⟨?_, ?_, ?_, ?_, ?_⟩
  · intro store c
    simp [is_cookie_in_driver, List.any_eq_true, Bool.and_eq_true, Bool.or_eq_true,
      beq_iff_eq, and_assoc]
  · have hle := (add_cookie_attempts_filter o (applyOverride cookie0 od)).2.2
    simp only [ensure_add_cookie, hcd]
    by_cases hpy : pyIn cd (browserDomain o) <;>
      simp [hpy, List.countP_append, DriverEvent.isAdd, List.countP_cons, hle]
  · intro h1
    simp only [ensure_add_cookie, hcd]
    by_cases hpy : pyIn cd (browserDomain o) <;>
      simp [hpy, add_cookie_attempts, h1, List.filter_append, DriverEvent.isAdd,
        DriverEvent.isNav]
  · intro h1 h2
    simp only [ensure_add_cookie, hcd]
    by_cases hpy : pyIn cd (browserDomain o) <;>
      simp [hpy, add_cookie_attempts, h1, h2, List.filter_append, DriverEvent.isAdd,
        DriverEvent.isNav]
  · intro h1 h2
    simp only [ensure_add_cookie, hcd]
    by_cases hpy : pyIn cd (browserDomain o) <;>
      simp [hpy, add_cookie_attempts, h1, h2, List.filter_append, DriverEvent.isAdd,
        DriverEvent.isNav]

/-- Witness for C6: the first add of the `www.site.com` cookie is not
verified, the retry with the domain widened to `site.com` is, so the call
succeeds with exactly two add attempts. -/
theorem ensure_add_cookie_retry_policy_witness :
    (ensure_add_cookie driver_oracle_witness cookie_witness none).1 = Except.ok () ∧
    (ensure_add_cookie driver_oracle_witness cookie_witness none).2.filter
        DriverEvent.isAdd =
      [DriverEvent.add (applyOverride cookie_witness none),
       DriverEvent.add (widen driver_oracle_witness (applyOverride cookie_witness none))] :=
  (ensure_add_cookie_retry_policy driver_oracle_witness cookie_witness none
    "www.site.com" (by decide)).2.2.2.1 (by decide) (by decide)

end ReqSelenium
